import Mathlib

/-
Shallow embedding of the prediction adapter in `src/main.py`
(`predict_risks` and its helpers).

Modelling conventions:
* Python floats are modelled as exact rationals (ℚ); no claim in scope
  concerns floating-point rounding, infinities or NaN.
* A value a model may hand back (a raw prediction, or the value of a
  metadata attribute) is an opaque Python object; we model the fragment
  relevant to the code with `PyVal` and give executable models of Python's
  `float(...)` and `int(...)` coercions on it (`pyFloat`, `pyInt`), including
  a parser for the decimal fragment of numeric strings.
* A model object is a record: the two optional metadata attributes the code
  introspects, plus its `predict` function, which either returns a raw value,
  raises `ValueError` with a message, or raises some other exception with a
  message (`PredictOutcome`).
* `re.search(r"expected[: ]+(\d+)[, ]+got[: ]+(\d+)", msg)` is embedded as
  `parseShapeMismatch`: leftmost match, case-sensitive literals, one-or-more
  colon/space and comma/space separator runs, maximal digit runs.  For this
  pattern each greedy class is disjoint from what must follow it, so
  maximal-munch at each successive start position is exactly Python's
  backtracking search.
* `raise HTTPException(status_code=500, detail=...)` is embedded as
  `Except.error detail`; the per-request handler becomes a total function
  returning `Except String (List (String × ℚ))`, the `results` association
  list built in the loop (in `dict` insertion order of `MODEL_PATHS`).
-/

namespace CyberRisk

deriving instance DecidableEq for Except

section
attribute [local semireducible] Rat.add Rat.mul Rat.inv Rat.sub Rat.ofScientific

/-- Fragment of Python runtime values a model can hand to the adapter:
floats (as exact rationals), ints, strings, and `None`. -/
inductive PyVal where
  | float (x : ℚ)
  | int (n : Int)
  | str (s : String)
  | pyNone
deriving DecidableEq

/-- Outcome of one call to a model's `predict` on a single-row batch:
the first element of the returned batch, a raised `ValueError` with its
message, or any other raised exception with its message. -/
inductive PredictOutcome where
  | ok (raw : PyVal)
  | valueError (msg : String)
  | otherError (msg : String)
deriving DecidableEq

/-- Numeric value of a digit character. -/
def digitVal (c : Char) : Nat := c.toNat - 48

/-- Decimal value of a digit run. -/
def digitsToNat (ds : List Char) : Nat := ds.foldl (fun a c => 10 * a + digitVal c) 0

/-- Whitespace stripping as Python's `str.strip()` does before numeric
conversion. -/
def pyStripWs (cs : List Char) : List Char :=
  ((cs.dropWhile Char.isWhitespace).reverse.dropWhile Char.isWhitespace).reverse

/-- Optional leading sign; returns (isNegative, rest). -/
def parseSign : List Char → Bool × List Char
  | '-' :: r => (true, r)
  | '+' :: r => (false, r)
  | cs => (false, cs)

/-- Mantissa of a decimal literal: `digits`, `digits.digits?` or `.digits`. -/
def parseMantissa (cs : List Char) : Option (ℚ × List Char) :=
  let p := cs.span Char.isDigit
  match p.2 with
  | '.' :: r2 =>
    let q := r2.span Char.isDigit
    if p.1.isEmpty && q.1.isEmpty then none
    else some ((digitsToNat p.1 : ℚ) + (digitsToNat q.1 : ℚ) / (10 : ℚ) ^ q.1.length, q.2)
  | _ => if p.1.isEmpty then none else some ((digitsToNat p.1 : ℚ), p.2)

/-- Optional exponent part `e[sign]digits`; absent exponent is exponent 0. -/
def parseExponent : List Char → Option (Int × List Char)
  | [] => some (0, [])
  | c :: r =>
    if c = 'e' ∨ c = 'E' then
      let s := parseSign r
      let q := s.1
      let p := s.2.span Char.isDigit
      if p.1.isEmpty then none
      else some ((if q then -(digitsToNat p.1 : Int) else (digitsToNat p.1 : Int)), p.2)
    else some (0, c :: r)

/-- Python's `float(s)` on a string, for the finite decimal fragment of its
grammar (optional sign, decimal mantissa, optional exponent, surrounding
whitespace); `none` means the coercion raises. -/
def pyFloatOfString (s : String) : Option ℚ :=
  let cs := pyStripWs s.data
  let sg := parseSign cs
  match parseMantissa sg.2 with
  | none => none
  | some (q, r2) =>
    match parseExponent r2 with
    | none => none
    | some (e, r3) =>
      if r3.isEmpty then some ((if sg.1 then -q else q) * (10 : ℚ) ^ e) else none

/-- Python's `int(s)` on a string: optional sign then digits only. -/
def pyIntOfString (s : String) : Option Int :=
  let cs := pyStripWs s.data
  let sg := parseSign cs
  let p := sg.2.span Char.isDigit
  if p.1.isEmpty ∨ ¬ p.2.isEmpty then none
  else some (if sg.1 then -(digitsToNat p.1 : Int) else (digitsToNat p.1 : Int))

/-- Truncation toward zero, Python's `int(x)` on a float. -/
def pyTruncToInt (x : ℚ) : Int := Int.tdiv x.num (x.den : Int)

/-- Python's `float(v)`; `none` means the coercion raises. -/
def pyFloat : PyVal → Option ℚ
  | .float x => some x
  | .int n => some (n : ℚ)
  | .str s => pyFloatOfString s
  | .pyNone => none

/-- Python's `int(v)`; `none` means the coercion raises. -/
def pyInt : PyVal → Option Int
  | .float x => some (pyTruncToInt x)
  | .int n => some n
  | .str s => pyIntOfString s
  | .pyNone => none

/-- Character class `[: ]` of the shape-mismatch pattern. -/
def isColonSpace (c : Char) : Bool := c = ':' ∨ c = ' '

/-- Character class `[, ]` of the shape-mismatch pattern. -/
def isCommaSpace (c : Char) : Bool := c = ',' ∨ c = ' '

/-- Match a literal character sequence (case-sensitive, as `re` with no
flags); returns the rest on success. -/
def eatLit : List Char → List Char → Option (List Char)
  | [], cs => some cs
  | p :: ps, c :: cs => if c = p then eatLit ps cs else none
  | _ :: _, [] => none

/-- Match one-or-more characters of a class, maximally. -/
def eatRun1 (p : Char → Bool) : List Char → Option (List Char)
  | c :: cs => if p c then some (cs.dropWhile p) else none
  | [] => none

/-- Match a maximal nonempty digit run and return its value. -/
def eatNat1 (cs : List Char) : Option (Nat × List Char) :=
  let p := cs.span Char.isDigit
  if p.1.isEmpty then none else some (digitsToNat p.1, p.2)

/-- Match `expected[: ]+(\d+)[, ]+got[: ]+(\d+)` anchored at the start of
`cs`, returning the two captured numbers. -/
def matchShapeAt (cs : List Char) : Option (Nat × Nat) := do
  let r1 ← eatLit "expected".data cs
  let r2 ← eatRun1 isColonSpace r1
  let (n1, r3) ← eatNat1 r2
  let r4 ← eatRun1 isCommaSpace r3
  let r5 ← eatLit "got".data r4
  let r6 ← eatRun1 isColonSpace r5
  let (n2, _) ← eatNat1 r6
  pure (n1, n2)

/-- Leftmost match of the pattern anywhere in the text, as `re.search`. -/
def searchShape : List Char → Option (Nat × Nat)
  | [] => none
  | c :: cs =>
    match matchShapeAt (c :: cs) with
    | some r => some r
    | none => searchShape cs

/-- The code's `re.search(r"expected[: ]+(\d+)[, ]+got[: ]+(\d+)", msg)`,
with `(group(1), group(2))` on success. -/
def parseShapeMismatch (msg : String) : Option (Nat × Nat) := searchShape msg.data

example : parseShapeMismatch "expected 7, got 5" = some (7, 5) := by decide
example : parseShapeMismatch "Expected 7, got 5" = none := by decide
example : parseShapeMismatch "foo expected: 12,  got: 5 bar" = some (12, 5) := by decide
example : pyFloatOfString "42" = some 42 := by decide
example : pyFloatOfString " -3.5e1 " = some (-35) := by decide
example : pyFloatOfString "abc" = none := by decide
example : pyIntOfString "8" = some 8 := by decide
example : pyIntOfString "8.5" = none := by decide

/-- A trained model object as the adapter sees it: the two optional metadata
attributes probed by `hasattr`/`getattr` (absent = `none`), and the `predict`
function on a single feature vector (the code always passes a batch of one
and takes element 0; we identify the batch with its only row). -/
structure Model where
  n_features_in_ : Option PyVal
  n_features_ : Option PyVal
  predict : List ℚ → PredictOutcome

/-- Lines 76-86: probe `n_features_in_` first, else `n_features_`; a present
attribute whose `int(...)` coercion raises gives `expected = None` without
falling through to the second attribute (the code uses `elif`). -/
def introspectWidth (m : Model) : Option Int :=
  match m.n_features_in_ with
  | some v => pyInt v
  | none =>
    match m.n_features_ with
    | some v => pyInt v
    | none => none

/-- Python's `xs[:e]` slice for an arbitrary integer `e` (a negative stop
counts from the end, clamped at 0). -/
def pySliceTo (e : Int) (xs : List ℚ) : List ℚ :=
  if 0 ≤ e then xs.take e.toNat else xs.take ((xs.length : Int) + e).toNat

/-- Lines 88-94: if the expected width is known and differs from the current
length, right-pad with zeros or truncate with `features[:expected]`. -/
def reshape (expected : Option Int) (features : List ℚ) : List ℚ :=
  match expected with
  | none => features
  | some e =>
    if e = (features.length : Int) then features
    else if (features.length : Int) < e then
      features ++ List.replicate (e - features.length).toNat 0
    else pySliceTo e features

/-- Line 128: `max(0.0, min(100.0, val))`. -/
def clampScore (x : ℚ) : ℚ := max 0 (min 100 x)

/-- Lines 122-128: coerce the raw prediction with `float(...)` and clamp;
a failing coercion raises the non-numeric `HTTPException` for this risk. -/
def coerceClamp (risk : String) (raw : PyVal) : Except String ℚ :=
  match pyFloat raw with
  | some v => Except.ok (clampScore v)
  | none => Except.error ("Model returned non-numeric prediction for " ++ risk)

/-- The per-model working copy of the feature vector after the
introspection-driven reshape (lines 73-94): what the first prediction
attempt receives. -/
def workVector (base : List ℚ) (m : Model) : List ℚ :=
  reshape (introspectWidth m) base

/-- Line 107: `features += [0.0] * (exp - len(features))`. -/
def padTo (xs : List ℚ) (exp : Nat) : List ℚ :=
  xs ++ List.replicate (exp - xs.length) 0

/-- Lines 72-128, one iteration of the per-model loop of `predict_risks`:
the outcome for this risk, paired with the trace of feature vectors passed
to `model.predict`, in call order. -/
def predictOneT (risk : String) (base : List ℚ) (m : Model) :
    Except String ℚ × List (List ℚ) :=
  match m.predict (workVector base m) with
  | .ok raw => (coerceClamp risk raw, [workVector base m])
  | .valueError msg =>
    match parseShapeMismatch msg with
    | some (exp, _) =>
      if (workVector base m).length < exp then
        match m.predict (padTo (workVector base m) exp) with
        | .ok raw => (coerceClamp risk raw, [workVector base m, padTo (workVector base m) exp])
        | .valueError msg2 =>
          (Except.error ("Prediction error after padding: " ++ msg2),
           [workVector base m, padTo (workVector base m) exp])
        | .otherError msg2 =>
          (Except.error ("Prediction error after padding: " ++ msg2),
           [workVector base m, padTo (workVector base m) exp])
      else (Except.error ("Prediction error: " ++ msg), [workVector base m])
    | none => (Except.error ("Prediction error: " ++ msg), [workVector base m])
  | .otherError msg => (Except.error ("Prediction error: " ++ msg), [workVector base m])

/-- The per-model outcome: the clamped score for this risk, or the detail
string of the raised `HTTPException`. -/
def predictOne (risk : String) (base : List ℚ) (m : Model) : Except String ℚ :=
  (predictOneT risk base m).1

/-- The vectors passed to `model.predict` for this risk, in call order. -/
def predictOneCalls (risk : String) (base : List ℚ) (m : Model) : List (List ℚ) :=
  (predictOneT risk base m).2

/-- Request body: five personality trait integers. -/
structure PersonalityInput where
  openness : Int
  conscientiousness : Int
  extraversion : Int
  agreeableness : Int
  neuroticism : Int
deriving DecidableEq

/-- Pydantic validation `conint(ge=0, le=100)` on every field. -/
def ValidInput (inp : PersonalityInput) : Prop :=
  0 ≤ inp.openness ∧ inp.openness ≤ 100 ∧
  0 ≤ inp.conscientiousness ∧ inp.conscientiousness ≤ 100 ∧
  0 ≤ inp.extraversion ∧ inp.extraversion ≤ 100 ∧
  0 ≤ inp.agreeableness ∧ inp.agreeableness ≤ 100 ∧
  0 ≤ inp.neuroticism ∧ inp.neuroticism ≤ 100

instance (inp : PersonalityInput) : Decidable (ValidInput inp) := by
  unfold ValidInput; infer_instance

/-- Lines 62-68: `base_features`, the five trait values as floats. -/
def base_features (inp : PersonalityInput) : List ℚ :=
  [(inp.openness : ℚ), (inp.conscientiousness : ℚ), (inp.extraversion : ℚ),
   (inp.agreeableness : ℚ), (inp.neuroticism : ℚ)]

/-- The five fixed risk names, in `MODEL_PATHS` insertion order. -/
def riskKeys : List String :=
  ["phishing_risk", "weak_password_risk", "oversharing_risk",
   "emotional_manipulation_risk", "update_ignorance_risk"]

/-- The module-level `models` dict: one loaded model per fixed risk name. -/
structure ModelRegistry where
  phishing_risk : Model
  weak_password_risk : Model
  oversharing_risk : Model
  emotional_manipulation_risk : Model
  update_ignorance_risk : Model

/-- `models.items()` in `dict` insertion order (Python 3.7+ semantics,
insertion order of `MODEL_PATHS`). -/
def registryItems (R : ModelRegistry) : List (String × Model) :=
  [("phishing_risk", R.phishing_risk),
   ("weak_password_risk", R.weak_password_risk),
   ("oversharing_risk", R.oversharing_risk),
   ("emotional_manipulation_risk", R.emotional_manipulation_risk),
   ("update_ignorance_risk", R.update_ignorance_risk)]

/-- The `for risk, model in models.items()` loop building `results`: the
first per-model failure raises out of the loop; otherwise each clamped score
is recorded under its risk name, in iteration order. -/
def predictAll (base : List ℚ) : List (String × Model) → Except String (List (String × ℚ))
  | [] => Except.ok []
  | (risk, m) :: rest =>
    match predictOne risk base m with
    | Except.ok v =>
      match predictAll base rest with
      | Except.ok tail => Except.ok ((risk, v) :: tail)
      | Except.error d => Except.error d
    | Except.error d => Except.error d

/-- Lines 59-130, `predict_risks`: on success the `results` association list
(which `RiskScores(**results)` repackages field-for-field), otherwise the
detail string of the raised `HTTPException`. -/
def predict_risks (inp : PersonalityInput) (R : ModelRegistry) :
    Except String (List (String × ℚ)) :=
  predictAll (base_features inp) (registryItems R)

/-- Naive substring test over character lists (used to state that an error
detail does not carry a given message). -/
def containsSub (needle : List Char) : List Char → Bool
  | [] => (eatLit needle []).isSome
  | c :: cs => (eatLit needle (c :: cs)).isSome || containsSub needle cs

/-- Extensional equality of model objects: same metadata attributes and the
same (deterministic) prediction function. -/
def Model.SameBehavior (a b : Model) : Prop :=
  a.n_features_in_ = b.n_features_in_ ∧ a.n_features_ = b.n_features_ ∧
  ∀ v, a.predict v = b.predict v

/-! ### Concrete model objects used to instantiate the theorems -/

/-- A model with no width metadata that always predicts the given value. -/
def constModel (x : ℚ) : Model :=
  { n_features_in_ := none, n_features_ := none, predict := fun _ => .ok (.float x) }

/-- A model that rejects the 5-vector with a capitalised shape-mismatch
message and succeeds on any other width. -/
def capMsgModel : Model :=
  { n_features_in_ := none, n_features_ := none,
    predict := fun v =>
      if v.length = 5 then .valueError "Expected 7, got 5" else .ok (.float 50) }

/-- A model that rejects the 5-vector with a lowercase shape-mismatch
message and succeeds on any other width. -/
def lowMsgModel : Model :=
  { n_features_in_ := none, n_features_ := none,
    predict := fun v =>
      if v.length = 5 then .valueError "expected 7, got 5" else .ok (.float 50) }

/-- A model whose first attempt raises a parseable shape mismatch and whose
padded retry raises an unrelated error. -/
def boomModel : Model :=
  { n_features_in_ := none, n_features_ := none,
    predict := fun v =>
      if v.length = 5 then .valueError "expected 7, got 5" else .valueError "boom" }

/-- A model advertising width 3 that accepts only width 7, answering with a
shape-mismatch message; used for the truncation-then-padding path. -/
def truncPadModel : Model :=
  { n_features_in_ := some (.int 3), n_features_ := none,
    predict := fun v =>
      if v.length = 3 then .valueError "expected 7, got 3"
      else if v.length = 7 then .ok (.float 60) else .otherError "bad" }

/-- A model with no metadata that answers the numeric string "42". -/
def strModel : Model :=
  { n_features_in_ := none, n_features_ := none, predict := fun _ => .ok (.str "42") }

/-- A model with no metadata whose prediction is `None`. -/
def noneModel : Model :=
  { n_features_in_ := none, n_features_ := none, predict := fun _ => .ok .pyNone }

/-- A model advertising width 8 through `n_features_in_`. -/
def w8Model : Model :=
  { n_features_in_ := some (.int 8), n_features_ := none, predict := fun _ => .ok (.float 1) }

/-- A model with both width attributes set (to different values). -/
def attrIntModel : Model :=
  { n_features_in_ := some (.int 3), n_features_ := some (.int 9),
    predict := fun _ => .ok (.float 1) }

/-- A model exposing only the second width attribute. -/
def attrSecondModel : Model :=
  { n_features_in_ := none, n_features_ := some (.int 4),
    predict := fun _ => .ok (.float 1) }

/-- A model whose first width attribute is present but not coercible to an
integer, even though the second is a clean integer. -/
def attrBadModel : Model :=
  { n_features_in_ := some .pyNone, n_features_ := some (.int 4),
    predict := fun _ => .ok (.float 1) }

/-- An all-constant registry. -/
def constRegistry : ModelRegistry :=
  { phishing_risk := constModel 10, weak_password_risk := constModel 20,
    oversharing_risk := constModel 30, emotional_manipulation_risk := constModel (-15),
    update_ignorance_risk := constModel 142.7 }

/-- A registry whose third model fails. -/
def failingRegistry : ModelRegistry :=
  { phishing_risk := constModel 10, weak_password_risk := constModel 20,
    oversharing_risk := noneModel, emotional_manipulation_risk := constModel 40,
    update_ignorance_risk := constModel 50 }

/-- The all-50 request body. -/
def sampleInput : PersonalityInput :=
  { openness := 50, conscientiousness := 50, extraversion := 50,
    agreeableness := 50, neuroticism := 50 }

/-! ### Helper lemmas -/

theorem clampScore_bounds (x : ℚ) : 0 ≤ clampScore x ∧ clampScore x ≤ 100 :=
  ⟨le_max_left 0 _, max_le (by norm_num) (min_le_left _ _)⟩

theorem coerceClamp_ok_bounds (risk : String) (raw : PyVal) (v : ℚ)
    (h : coerceClamp risk raw = Except.ok v) : 0 ≤ v ∧ v ≤ 100 := by
  unfold coerceClamp at h
  split at h
  · simp only [Except.ok.injEq] at h
    exact h ▸ clampScore_bounds _
  · exact Except.noConfusion h

theorem predictOne_ok_bounds (risk : String) (base : List ℚ) (m : Model) (v : ℚ)
    (h : predictOne risk base m = Except.ok v) : 0 ≤ v ∧ v ≤ 100 := by
  unfold predictOne predictOneT at h
  repeat' split at h
  all_goals
    first
      | exact coerceClamp_ok_bounds _ _ _ h
      | exact Except.noConfusion h

theorem predictAll_ok_spec (base : List ℚ) :
    ∀ (lst : List (String × Model)) (res : List (String × ℚ)),
      predictAll base lst = Except.ok res →
      res.map Prod.fst = lst.map Prod.fst ∧ ∀ p ∈ res, 0 ≤ p.2 ∧ p.2 ≤ 100
  | [], res, h => by
    simp only [predictAll, Except.ok.injEq] at h
    subst h
    simp
  | (risk, m) :: rest, res, h => by
    simp only [predictAll] at h
    cases hp : predictOne risk base m with
    | error d => rw [hp] at h; exact Except.noConfusion h
    | ok v =>
      rw [hp] at h
      cases hr : predictAll base rest with
      | error d => rw [hr] at h; exact Except.noConfusion h
      | ok tail =>
        rw [hr] at h
        simp only [Except.ok.injEq] at h
        subst h
        obtain ⟨hkeys, hvals⟩ := predictAll_ok_spec base rest tail hr
        refine ⟨by simp [hkeys], ?_⟩
        intro p hmem
        rcases List.mem_cons.mp hmem with h1 | h2
        · exact h1 ▸ predictOne_ok_bounds risk base m v hp
        · exact hvals p h2

theorem predictAll_error_of_mem (base : List ℚ) :
    ∀ (lst : List (String × Model)) (p : String × Model), p ∈ lst →
      (∃ d, predictOne p.1 base p.2 = Except.error d) →
      ∃ d, predictAll base lst = Except.error d
  | [], p, hmem, _ => absurd hmem (List.not_mem_nil p)
  | (risk, m) :: rest, p, hmem, ⟨d, hd⟩ => by
    cases hp : predictOne risk base m with
    | error e => exact ⟨e, by simp only [predictAll]; rw [hp]⟩
    | ok v =>
      have hrest : p ∈ rest := by
        rcases List.mem_cons.mp hmem with h1 | h2
        · exfalso
          rw [h1] at hd
          rw [hp] at hd
          exact Except.noConfusion hd
        · exact h2
      obtain ⟨e, he⟩ := predictAll_error_of_mem base rest p hrest ⟨d, hd⟩
      exact ⟨e, by simp only [predictAll]; rw [hp, he]⟩

theorem predictOneCalls_head (risk : String) (base : List ℚ) (m : Model) :
    (predictOneCalls risk base m).head? = some (workVector base m) := by
  unfold predictOneCalls predictOneT
  repeat' split
  all_goals rfl

theorem predictOneCalls_cases (risk : String) (base : List ℚ) (m : Model) :
    predictOneCalls risk base m = [workVector base m] ∨
    ∃ n, predictOneCalls risk base m = [workVector base m, padTo (workVector base m) n] := by
  unfold predictOneCalls predictOneT
  repeat' split
  all_goals first | exact Or.inl rfl | exact Or.inr ⟨_, rfl⟩

theorem introspectWidth_congr {a b : Model} (h : Model.SameBehavior a b) :
    introspectWidth a = introspectWidth b := by
  obtain ⟨h1, h2, -⟩ := h
  unfold introspectWidth
  rw [h1, h2]

theorem predictOneT_congr (risk : String) (base : List ℚ) {a b : Model}
    (h : Model.SameBehavior a b) : predictOneT risk base a = predictOneT risk base b := by
  have hw : workVector base a = workVector base b := by
    unfold workVector
    rw [introspectWidth_congr h]
  obtain ⟨-, -, h3⟩ := h
  unfold predictOneT
  simp only [hw, h3]

theorem reshape_natCast_eq {w : Nat} {xs : List ℚ} (h : xs.length = w) :
    reshape (some (w : Int)) xs = xs := by
  simp only [reshape]
  rw [if_pos (by omega)]

theorem reshape_natCast_gt {w : Nat} {xs : List ℚ} (h : xs.length < w) :
    reshape (some (w : Int)) xs = xs ++ List.replicate (w - xs.length) 0 := by
  simp only [reshape]
  rw [if_neg (by omega), if_pos (by omega)]
  have ht : ((w : Int) - (xs.length : Int)).toNat = w - xs.length := by omega
  rw [ht]

theorem reshape_natCast_lt {w : Nat} {xs : List ℚ} (h : w < xs.length) :
    reshape (some (w : Int)) xs = xs.take w := by
  simp only [reshape, pySliceTo]
  rw [if_neg (by omega), if_neg (by omega), if_pos (by omega)]
  have ht : ((w : Int)).toNat = w := by omega
  rw [ht]

/-! ### Claims -/

/-- C1: for every valid input and every run where no model's prediction
fails, `predict_risks` returns a result set containing exactly the 5 fixed
risk keys, and every value lies in the closed interval [0, 100]. -/
theorem C1_response_shape (inp : PersonalityInput) (R : ModelRegistry)
    (hv : ValidInput inp) (res : List (String × ℚ))
    (h : predict_risks inp R = Except.ok res) :
    res.map Prod.fst = riskKeys ∧ ∀ p ∈ res, 0 ≤ p.2 ∧ p.2 ≤ 100 := by
  clear hv
  obtain ⟨hkeys, hvals⟩ := predictAll_ok_spec (base_features inp) (registryItems R) res h
  exact ⟨by rw [hkeys]; rfl, hvals⟩

/-- Witness for C1: the all-50 input against the constant registry. -/
theorem C1_response_shape_witness :
    [("phishing_risk", (10 : ℚ)), ("weak_password_risk", 20), ("oversharing_risk", 30),
      ("emotional_manipulation_risk", 0), ("update_ignorance_risk", 100)].map Prod.fst
      = riskKeys ∧
    ∀ p ∈ [("phishing_risk", (10 : ℚ)), ("weak_password_risk", 20), ("oversharing_risk", 30),
      ("emotional_manipulation_risk", 0), ("update_ignorance_risk", 100)],
      0 ≤ p.2 ∧ p.2 ≤ 100 :=
  C1_response_shape sampleInput constRegistry (by decide) _ (by decide)

/-- C2: a known introspected width w ≠ 5 reshapes the vector handed to the
first prediction attempt: right-padded with w - 5 zeros when w > 5,
truncated to the first w features when w < 5, and unchanged when w = 5. -/
theorem C2_width_reconciliation (risk : String) (base : List ℚ) (m : Model) (w : Nat)
    (hbase : base.length = 5) (hw : introspectWidth m = some (w : Int)) :
    (predictOneCalls risk base m).head? = some (workVector base m) ∧
    (5 < w → workVector base m = base ++ List.replicate (w - 5) 0) ∧
    (w < 5 → workVector base m = base.take w) ∧
    (w = 5 → workVector base m = base) := by
  refine ⟨predictOneCalls_head risk base m, ?_, ?_, ?_⟩
  · intro h5
    unfold workVector
    rw [hw, reshape_natCast_gt (by omega), hbase]
  · intro h5
    unfold workVector
    rw [hw, reshape_natCast_lt (by omega)]
  · intro h5
    unfold workVector
    rw [hw, reshape_natCast_eq (by omega)]

/-- Witness for C2: a width-8 model receives the five features plus three
zeros. -/
theorem C2_width_reconciliation_witness :
    workVector [1, 2, 3, 4, 5] w8Model = [1, 2, 3, 4, 5, 0, 0, 0] := by
  have h := (C2_width_reconciliation "phishing_risk" [1, 2, 3, 4, 5] w8Model 8
    (by decide) (by decide)).2.1 (by decide)
  rw [h]
  rfl

/-- C3 counterexample: the message "Expected 7, got 5" matches the claimed
pattern under case-insensitive matching, with N1 = 7 greater than the vector
length 5, and the padded retry would succeed with 50; yet the adapter's
case-sensitive regex does not match, so it raises instead of retrying. -/
theorem C3_counterexample :
    parseShapeMismatch "Expected 7, got 5" = none ∧
    parseShapeMismatch "expected 7, got 5" = some (7, 5) ∧
    capMsgModel.predict [1, 2, 3, 4, 5, 0, 0] = .ok (.float 50) ∧
    predictOne "phishing_risk" [1, 2, 3, 4, 5] capMsgModel =
      Except.error "Prediction error: Expected 7, got 5" :=
  ⟨by decide, by decide, by decide, by decide⟩

/-- C3 (amended): for a first-attempt value error whose message matches the
pattern "expected N1 ... got N2" case-SENSITIVELY (tolerating colon/space and
comma/space separator runs) with N1 greater than the current vector length,
the adapter right-pads with zeros to length N1 and retries exactly once; a
successful retry records its clamped result. -/
theorem C3_padding_retry (risk : String) (base : List ℚ) (m : Model) (msg : String)
    (exp n2 : Nat) (raw : PyVal) (x : ℚ)
    (h1 : m.predict (workVector base m) = .valueError msg)
    (h2 : parseShapeMismatch msg = some (exp, n2))
    (h3 : (workVector base m).length < exp)
    (h4 : m.predict (padTo (workVector base m) exp) = .ok raw)
    (h5 : pyFloat raw = some x) :
    predictOne risk base m = Except.ok (clampScore x) ∧
    predictOneCalls risk base m = [workVector base m, padTo (workVector base m) exp] := by
  constructor <;>
    simp only [predictOne, predictOneCalls, predictOneT, h1, h2, h3, if_true, h4,
      coerceClamp, h5]

/-- Witness for C3: the lowercase message "expected 7, got 5" triggers one
padded retry, which succeeds. -/
theorem C3_padding_retry_witness :
    predictOne "phishing_risk" [1, 2, 3, 4, 5] lowMsgModel = Except.ok 50 ∧
    predictOneCalls "phishing_risk" [1, 2, 3, 4, 5] lowMsgModel =
      [[1, 2, 3, 4, 5], [1, 2, 3, 4, 5, 0, 0]] := by
  obtain ⟨ha, hb⟩ := C3_padding_retry "phishing_risk" [1, 2, 3, 4, 5] lowMsgModel
    "expected 7, got 5" 7 5 (.float 50) 50 (by decide) (by decide) (by decide)
    (by decide) (by decide)
  constructor
  · rw [ha]; decide
  · rw [hb]; decide

/-- C4 counterexample: when the padded retry itself fails, the resulting
error detail carries the retry error's message ("boom"), not the original
shape-mismatch message, which appears nowhere in the detail. -/
theorem C4_counterexample :
    predictOne "phishing_risk" [1, 2, 3, 4, 5] boomModel =
      Except.error "Prediction error after padding: boom" ∧
    containsSub "expected 7, got 5".data "Prediction error after padding: boom".data = false :=
  ⟨by decide, by decide⟩

/-- C4 (amended): for a first-attempt value error, if the message does not
match the pattern, or the parsed N1 does not exceed the current length, the
PredictionError carries the ORIGINAL message; if the single padding-retry
fails, the PredictionError carries the RETRY error's message (prefixed
"Prediction error after padding:"), not the original one. -/
theorem C4_error_propagation (risk : String) (base : List ℚ) (m : Model) (msg d : String)
    (h1 : m.predict (workVector base m) = .valueError msg)
    (hcase :
      (parseShapeMismatch msg = none ∧ d = "Prediction error: " ++ msg) ∨
      (∃ exp n2, parseShapeMismatch msg = some (exp, n2) ∧
        ¬ (workVector base m).length < exp ∧ d = "Prediction error: " ++ msg) ∨
      (∃ exp n2 msg2, parseShapeMismatch msg = some (exp, n2) ∧
        (workVector base m).length < exp ∧
        (m.predict (padTo (workVector base m) exp) = .valueError msg2 ∨
          m.predict (padTo (workVector base m) exp) = .otherError msg2) ∧
        d = "Prediction error after padding: " ++ msg2)) :
    predictOne risk base m = Except.error d := by
  rcases hcase with ⟨hp, hd⟩ | ⟨exp, n2, hp, hlt, hd⟩ | ⟨exp, n2, msg2, hp, hlt, hr, hd⟩
  · subst hd
    simp only [predictOne, predictOneT, h1, hp]
  · subst hd
    simp only [predictOne, predictOneT, h1, hp, if_neg hlt]
  · subst hd
    rcases hr with hr | hr <;>
      simp only [predictOne, predictOneT, h1, hp, hlt, if_true, hr]

/-- Witness for C4: the failing retry surfaces the retry error's message. -/
theorem C4_error_propagation_witness :
    predictOne "phishing_risk" [1, 2, 3, 4, 5] boomModel =
      Except.error ("Prediction error after padding: " ++ "boom") :=
  C4_error_propagation "phishing_risk" [1, 2, 3, 4, 5] boomModel "expected 7, got 5" _
    (by decide)
    (Or.inr (Or.inr ⟨7, 5, "boom", by decide, by decide, Or.inl (by decide), rfl⟩))

/-- C5: the expected width comes from the first present of the two metadata
attributes, in priority order (`n_features_in_` before `n_features_`); a
present value whose integer coercion fails leaves the width unknown (the
`elif` never consults the second attribute), as does the absence of both;
an unknown width leaves the 5-element vector unchanged before the first
prediction attempt. -/
theorem C5_introspection_priority (m : Model) (base : List ℚ) (risk : String) :
    (∀ v, m.n_features_in_ = some v → introspectWidth m = pyInt v) ∧
    (∀ v, m.n_features_in_ = none → m.n_features_ = some v → introspectWidth m = pyInt v) ∧
    (m.n_features_in_ = none → m.n_features_ = none → introspectWidth m = none) ∧
    (introspectWidth m = none → (predictOneCalls risk base m).head? = some base) := by
  refine ⟨?_, ?_, ?_, ?_⟩
  · intro v hv
    unfold introspectWidth
    rw [hv]
  · intro v h0 hv
    unfold introspectWidth
    rw [h0, hv]
  · intro h0 h1
    unfold introspectWidth
    rw [h0, h1]
  · intro hn
    rw [predictOneCalls_head risk base m]
    unfold workVector
    rw [hn]
    rfl

/-- Witness for C5: priority of the first attribute, fallback to the second,
coercion failure making the width unknown, and the unchanged vector. -/
theorem C5_introspection_priority_witness :
    introspectWidth attrIntModel = some 3 ∧
    introspectWidth attrSecondModel = some 4 ∧
    introspectWidth attrBadModel = none ∧
    (predictOneCalls "phishing_risk" [1, 2, 3, 4, 5] attrBadModel).head? =
      some [1, 2, 3, 4, 5] := by
  refine ⟨?_, ?_, ?_, ?_⟩
  · exact ((C5_introspection_priority attrIntModel [1, 2, 3, 4, 5] "phishing_risk").1
      (.int 3) rfl).trans (by decide)
  · exact ((C5_introspection_priority attrSecondModel [1, 2, 3, 4, 5] "phishing_risk").2.1
      (.int 4) rfl rfl).trans (by decide)
  · exact ((C5_introspection_priority attrBadModel [1, 2, 3, 4, 5] "phishing_risk").1
      .pyNone rfl).trans (by decide)
  · exact (C5_introspection_priority attrBadModel [1, 2, 3, 4, 5] "phishing_risk").2.2.2
      (((C5_introspection_priority attrBadModel [1, 2, 3, 4, 5] "phishing_risk").1
        .pyNone rfl).trans (by decide))

/-- C6: a raw prediction coercible to a number is recorded as its coercion
clamped to [0, 100]: -15 records as 0, 142.7 records as 100, and any value
already inside [0, 100] is recorded unchanged. -/
theorem C6_clamping (risk : String) (base : List ℚ) (m : Model) (raw : PyVal) (x : ℚ)
    (h1 : m.predict (workVector base m) = .ok raw)
    (h2 : pyFloat raw = some x) :
    predictOne risk base m = Except.ok (clampScore x) ∧
    clampScore x = max 0 (min 100 x) ∧
    clampScore (-15) = 0 ∧
    clampScore 142.7 = 100 ∧
    (0 ≤ x → x ≤ 100 → clampScore x = x) := by
  refine ⟨?_, rfl, by decide, by decide, ?_⟩
  · simp only [predictOne, predictOneT, h1, coerceClamp, h2]
  · intro hx0 hx100
    unfold clampScore
    rw [min_eq_right hx100, max_eq_right hx0]

/-- Witness for C6: clamping of -15, 142.7 and an in-range 55. -/
theorem C6_clamping_witness :
    predictOne "phishing_risk" [1, 2, 3, 4, 5] (constModel (-15)) = Except.ok 0 ∧
    predictOne "phishing_risk" [1, 2, 3, 4, 5] (constModel 142.7) = Except.ok 100 ∧
    predictOne "phishing_risk" [1, 2, 3, 4, 5] (constModel 55) = Except.ok 55 := by
  refine ⟨?_, ?_, ?_⟩
  · rw [(C6_clamping "phishing_risk" [1, 2, 3, 4, 5] (constModel (-15)) (.float (-15))
      (-15) (by decide) (by decide)).1]
    decide
  · rw [(C6_clamping "phishing_risk" [1, 2, 3, 4, 5] (constModel 142.7) (.float 142.7)
      142.7 (by decide) (by decide)).1]
    decide
  · rw [(C6_clamping "phishing_risk" [1, 2, 3, 4, 5] (constModel 55) (.float 55)
      55 (by decide) (by decide)).1]
    decide

/-- C7: a failure of any single model aborts the whole request with an error
(no partial result list exists), and no model is ever invoked more than
twice, the only second invocation being the single padding-retry. -/
theorem C7_total_failure (inp : PersonalityInput) (R : ModelRegistry) :
    ((∃ p ∈ registryItems R, ∃ d, predictOne p.1 (base_features inp) p.2 = Except.error d) →
      ∃ d, predict_risks inp R = Except.error d) ∧
    (∀ risk base m, predictOneCalls risk base m = [workVector base m] ∨
      ∃ n, predictOneCalls risk base m = [workVector base m, padTo (workVector base m) n]) := by
  constructor
  · rintro ⟨p, hmem, hd⟩
    exact predictAll_error_of_mem (base_features inp) (registryItems R) p hmem hd
  · intro risk base m
    exact predictOneCalls_cases risk base m

/-- Witness for C7: a registry whose third model yields a non-numeric
prediction makes the whole request fail. -/
theorem C7_total_failure_witness :
    ∃ d, predict_risks sampleInput failingRegistry = Except.error d :=
  (C7_total_failure sampleInput failingRegistry).1
    ⟨("oversharing_risk", noneModel),
      List.Mem.tail _ (List.Mem.tail _ (List.Mem.head _)),
      "Model returned non-numeric prediction for oversharing_risk", by decide⟩

/-- C8: with unchanged (extensionally equal, deterministic) models, two runs
of `predict_risks` on identical input yield identical outputs. -/
theorem C8_idempotent (inp : PersonalityInput) (R1 R2 : ModelRegistry)
    (h1 : Model.SameBehavior R1.phishing_risk R2.phishing_risk)
    (h2 : Model.SameBehavior R1.weak_password_risk R2.weak_password_risk)
    (h3 : Model.SameBehavior R1.oversharing_risk R2.oversharing_risk)
    (h4 : Model.SameBehavior R1.emotional_manipulation_risk R2.emotional_manipulation_risk)
    (h5 : Model.SameBehavior R1.update_ignorance_risk R2.update_ignorance_risk) :
    predict_risks inp R1 = predict_risks inp R2 := by
  have e1 : predictOne "phishing_risk" (base_features inp) R1.phishing_risk
      = predictOne "phishing_risk" (base_features inp) R2.phishing_risk :=
    congrArg Prod.fst (predictOneT_congr _ _ h1)
  have e2 : predictOne "weak_password_risk" (base_features inp) R1.weak_password_risk
      = predictOne "weak_password_risk" (base_features inp) R2.weak_password_risk :=
    congrArg Prod.fst (predictOneT_congr _ _ h2)
  have e3 : predictOne "oversharing_risk" (base_features inp) R1.oversharing_risk
      = predictOne "oversharing_risk" (base_features inp) R2.oversharing_risk :=
    congrArg Prod.fst (predictOneT_congr _ _ h3)
  have e4 : predictOne "emotional_manipulation_risk" (base_features inp)
        R1.emotional_manipulation_risk
      = predictOne "emotional_manipulation_risk" (base_features inp)
        R2.emotional_manipulation_risk :=
    congrArg Prod.fst (predictOneT_congr _ _ h4)
  have e5 : predictOne "update_ignorance_risk" (base_features inp) R1.update_ignorance_risk
      = predictOne "update_ignorance_risk" (base_features inp) R2.update_ignorance_risk :=
    congrArg Prod.fst (predictOneT_congr _ _ h5)
  unfold predict_risks registryItems
  simp only [predictAll, e1, e2, e3, e4, e5]

/-- Witness for C8: the constant registry against itself. -/
theorem C8_idempotent_witness :
    predict_risks sampleInput constRegistry = predict_risks sampleInput constRegistry :=
  C8_idempotent sampleInput constRegistry constRegistry
    ⟨rfl, rfl, fun _ => rfl⟩ ⟨rfl, rfl, fun _ => rfl⟩ ⟨rfl, rfl, fun _ => rfl⟩
    ⟨rfl, rfl, fun _ => rfl⟩ ⟨rfl, rfl, fun _ => rfl⟩

/-- C9: the padding target of the fallback is measured against the current
working vector: after an introspected truncation to w < 5, a value error
reporting expected N1 > w retries with the truncated w features followed by
N1 - w zeros, never with the original 5 features re-padded. -/
theorem C9_truncation_not_undone (risk : String) (base : List ℚ) (m : Model)
    (w exp n2 : Nat) (msg : String)
    (hbase : base.length = 5) (hw : introspectWidth m = some (w : Int)) (hw5 : w < 5)
    (h1 : m.predict (base.take w) = .valueError msg)
    (h2 : parseShapeMismatch msg = some (exp, n2))
    (h3 : w < exp) :
    predictOneCalls risk base m = [base.take w, base.take w ++ List.replicate (exp - w) 0] := by
  have hv : workVector base m = base.take w := by
    unfold workVector
    rw [hw]
    exact reshape_natCast_lt (by omega)
  have hlen : (base.take w).length = w := by
    rw [List.length_take]
    omega
  have hcond : (base.take w).length < exp := by rw [hlen]; exact h3
  have hpad : padTo (base.take w) exp = base.take w ++ List.replicate (exp - w) 0 := by
    unfold padTo
    rw [hlen]
  simp only [predictOneCalls, predictOneT, hv, h1, h2, hcond, if_true, hpad]
  cases hr : m.predict (base.take w ++ List.replicate (exp - w) 0) <;> simp

/-- Witness for C9: a model truncated to width 3 whose retry is the 3
truncated features plus 4 zeros, not the 5 originals re-padded. -/
theorem C9_truncation_not_undone_witness :
    predictOneCalls "phishing_risk" [1, 2, 3, 4, 5] truncPadModel =
      [[1, 2, 3], [1, 2, 3, 0, 0, 0, 0]] := by
  rw [C9_truncation_not_undone "phishing_risk" [1, 2, 3, 4, 5] truncPadModel 3 7 3
    "expected 7, got 3" (by decide) (by decide) (by decide) (by decide) (by decide)
    (by decide)]
  decide

/-- C10: a raw prediction that is a string parseable as a float coerces
successfully and its clamped value is recorded; the non-numeric
PredictionError is raised exactly when the float coercion of the raw
prediction raises. -/
theorem C10_numeric_string (risk : String) (base : List ℚ) (m : Model) (raw : PyVal) :
    pyFloat (.str "42") = some 42 ∧
    (∀ s x, m.predict (workVector base m) = .ok (.str s) → pyFloatOfString s = some x →
      predictOne risk base m = Except.ok (clampScore x)) ∧
    (m.predict (workVector base m) = .ok raw → pyFloat raw = none →
      predictOne risk base m =
        Except.error ("Model returned non-numeric prediction for " ++ risk)) := by
  refine ⟨by decide, ?_, ?_⟩
  · intro s x hs hx
    simp only [predictOne, predictOneT, hs, coerceClamp, pyFloat, hx]
  · intro hr hx
    simp only [predictOne, predictOneT, hr, coerceClamp, hx]

/-- Witness for C10: the string "42" records as 42; a `None` prediction
raises the non-numeric error. -/
theorem C10_numeric_string_witness :
    predictOne "phishing_risk" [1, 2, 3, 4, 5] strModel = Except.ok 42 ∧
    predictOne "oversharing_risk" [1, 2, 3, 4, 5] noneModel =
      Except.error ("Model returned non-numeric prediction for " ++ "oversharing_risk") := by
  constructor
  · rw [(C10_numeric_string "phishing_risk" [1, 2, 3, 4, 5] strModel (.str "42")).2.1
      "42" 42 (by decide) (by decide)]
    decide
  · exact (C10_numeric_string "oversharing_risk" [1, 2, 3, 4, 5] noneModel .pyNone).2.2
      (by decide) (by decide)

end

end CyberRisk
